import Mathlib

/-!
Verification of the `BaseBMS` contract from
`custom_components/bms_ble/plugins/seplosv3.py`.

The module has two pieces of logic:
* `supported`: a discovery record matches a driver iff some matcher in the
  driver's matcher list matches it (a `for` loop with early `return True`);
* `calc_values`: four guarded derivation rules that mutate the measurement
  dictionary in place, each gated by `can_calc` (target requested, target
  absent, all inputs present).

The dictionary `dict[str, int | float | bool]` is embedded as a function
`String → Option Val`, where `Val` carries a rational number (modelling the
exact arithmetic of the Python numbers involved) or a boolean.  In-place
mutation becomes functional update; the four sequential `if` statements
become four step functions applied in source order.
-/

namespace BmsBle

/-- A value stored in the BMS data dictionary: Python `int | float | bool`.
Numbers are modelled as rationals. -/
inductive Val where
  | num : ℚ → Val
  | bool : Bool → Val
deriving DecidableEq

/-- Numeric view of a stored value, following Python arithmetic where
`True` counts as `1` and `False` as `0`. -/
def toQ : Val → ℚ
  | .num q => q
  | .bool b => if b then 1 else 0

/-- The measurement dictionary `data: dict[str, int | float | bool]`:
`none` means the key is absent. -/
def Dict : Type := String → Option Val

/-- Functional counterpart of the in-place assignment `data[k] = v`. -/
def update (data : Dict) (k : String) (v : Val) : Dict :=
  fun j => if j = k then some v else data j

/-- Checked dictionary access `data[k]`; only ever used under a guard that
ensures the key is present, so the default is never observed. -/
def getv (data : Dict) (k : String) : Val :=
  (data k).getD (Val.num 0)

/-- Modelled from the spec: the metric-name constants imported from
`..const` (not under `src/`); the spec fixes the vocabulary
voltage, current, cycle-charge, cycle-capacity, power, charging-flag,
runtime.  Only their pairwise distinctness matters below. -/
def ATTR_VOLTAGE : String := "voltage"

/-- Modelled from the spec: metric name for current. -/
def ATTR_CURRENT : String := "current"

/-- Modelled from the spec: metric name for cycle charge. -/
def ATTR_CYCLE_CHRG : String := "cycle_charge"

/-- Modelled from the spec: metric name for cycle capacity. -/
def ATTR_CYCLE_CAP : String := "cycle_capacity"

/-- Modelled from the spec: metric name for power. -/
def ATTR_POWER : String := "power"

/-- Modelled from the spec: metric name for the charging flag. -/
def ATTR_BATTERY_CHARGING : String := "battery_charging"

/-- Modelled from the spec: metric name for runtime-to-empty. -/
def ATTR_RUNTIME : String := "runtime"

/-- Modelled from the spec: `_HRS_TO_SECS` from the host's unit-conversion
helpers, the factor 3600 in the runtime rule. -/
def HRS_TO_SECS : ℚ := 3600

/-- Python `int(q)` on a number: truncation toward zero. -/
def int_trunc (q : ℚ) : ℤ :=
  if q < 0 then ⌈q⌉ else ⌊q⌋

/-- `can_calc(value, using)` from the source: the target is requested, not
already present, and all keys of `using` are present in `data`. -/
def can_calc (data : Dict) (values : Finset String) (value : String)
    (usingv : Finset String) : Bool :=
  decide (value ∈ values) && (data value).isNone
    && decide (∀ k ∈ usingv, (data k).isSome)

/-- Rule 1 of `calc_values`: cycle capacity from voltage and cycle charge. -/
def calc_cycle_cap (values : Finset String) (data : Dict) : Dict :=
  if can_calc data values ATTR_CYCLE_CAP {ATTR_VOLTAGE, ATTR_CYCLE_CHRG} then
    update data ATTR_CYCLE_CAP
      (Val.num (toQ (getv data ATTR_VOLTAGE) * toQ (getv data ATTR_CYCLE_CHRG)))
  else data

/-- Rule 2 of `calc_values`: power from voltage and current. -/
def calc_power (values : Finset String) (data : Dict) : Dict :=
  if can_calc data values ATTR_POWER {ATTR_VOLTAGE, ATTR_CURRENT} then
    update data ATTR_POWER
      (Val.num (toQ (getv data ATTR_VOLTAGE) * toQ (getv data ATTR_CURRENT)))
  else data

/-- Rule 3 of `calc_values`: charging flag from current. -/
def calc_charging (values : Finset String) (data : Dict) : Dict :=
  if can_calc data values ATTR_BATTERY_CHARGING {ATTR_CURRENT} then
    update data ATTR_BATTERY_CHARGING
      (Val.bool (decide (toQ (getv data ATTR_CURRENT) > 0)))
  else data

/-- Rule 4 of `calc_values`: runtime from current and cycle charge, only
while discharging (`current < 0`). -/
def calc_runtime (values : Finset String) (data : Dict) : Dict :=
  if can_calc data values ATTR_RUNTIME {ATTR_CURRENT, ATTR_CYCLE_CHRG} then
    if toQ (getv data ATTR_CURRENT) < 0 then
      update data ATTR_RUNTIME
        (Val.num ((int_trunc (toQ (getv data ATTR_CYCLE_CHRG)
          / |toQ (getv data ATTR_CURRENT)| * HRS_TO_SECS) : ℤ)))
    else data
  else data

/-- `calc_values(data, values)`: the four rules applied in source order. -/
def calc_values (data : Dict) (values : Finset String) : Dict :=
  calc_runtime values (calc_charging values (calc_power values
    (calc_cycle_cap values data)))

/-- `supported(discovery_info)`: loop over `matcher_dict_list()` returning
`True` at the first matcher accepted by `ble_device_matches`, else `False`.
The host predicate `ble_device_matches` and the types of matchers and
discovery records are abstract parameters. -/
def supported {M D : Type} (ble_device_matches : M → D → Bool) :
    List M → D → Bool
  | [], _ => false
  | matcher_dict :: rest, discovery_info =>
    if ble_device_matches matcher_dict discovery_info then true
    else supported ble_device_matches rest discovery_info

/-!  ### A generic view of the four derivation rules

Every rule of `calc_values` has the shape "if `can_calc` (and possibly a
further guard on the data) holds, write `f data` to the target key".
`ruleApp` captures that shape once; each concrete rule is proved equal to
an instance of it, and the structural lemmas (frame, gating, commutation)
are proved about `ruleApp`.  -/

def ruleApp (values : Finset String) (tgt : String) (usingv : Finset String)
    (guard : Dict → Bool) (f : Dict → Val) (data : Dict) : Dict :=
  if can_calc data values tgt usingv && guard data then update data tgt (f data)
  else data

/-- The value written by rule 1. -/
def cycleCapVal (data : Dict) : Val :=
  Val.num (toQ (getv data ATTR_VOLTAGE) * toQ (getv data ATTR_CYCLE_CHRG))

/-- The value written by rule 2. -/
def powerVal (data : Dict) : Val :=
  Val.num (toQ (getv data ATTR_VOLTAGE) * toQ (getv data ATTR_CURRENT))

/-- The value written by rule 3. -/
def chargingVal (data : Dict) : Val :=
  Val.bool (decide (toQ (getv data ATTR_CURRENT) > 0))

/-- The guard of rule 4: discharging. -/
def dischargingGuard (data : Dict) : Bool :=
  decide (toQ (getv data ATTR_CURRENT) < 0)

/-- The value written by rule 4. -/
def runtimeVal (data : Dict) : Val :=
  Val.num ((int_trunc (toQ (getv data ATTR_CYCLE_CHRG)
    / |toQ (getv data ATTR_CURRENT)| * HRS_TO_SECS) : ℤ))

/-- The four derivation rules of `calc_values`, in source order. -/
def ruleList : List (Finset String → Dict → Dict) :=
  [calc_cycle_cap, calc_power, calc_charging, calc_runtime]

/-- Apply a list of derivation rules left to right. -/
def applySteps (steps : List (Finset String → Dict → Dict)) (values : Finset String)
    (data : Dict) : Dict :=
  steps.foldl (fun d s => s values d) data

/-!  ### Concrete measurement mappings from the spec's test vectors  -/

/-- Spec test vector: {voltage: 12.0, cycle-charge: 10.0}. -/
def dCap : Dict := fun k =>
  if k = ATTR_VOLTAGE then some (Val.num 12)
  else if k = ATTR_CYCLE_CHRG then some (Val.num 10) else none

/-- Spec test vector: {voltage: 12.0, current: 2.0}. -/
def dPow : Dict := fun k =>
  if k = ATTR_VOLTAGE then some (Val.num 12)
  else if k = ATTR_CURRENT then some (Val.num 2) else none

/-- Spec test vector: {current: -5.0, cycle-charge: 10.0} (discharging). -/
def dDis : Dict := fun k =>
  if k = ATTR_CURRENT then some (Val.num (-5))
  else if k = ATTR_CYCLE_CHRG then some (Val.num 10) else none

/-- Spec test vector: {current: 5.0, cycle-charge: 10.0} (charging). -/
def dChg : Dict := fun k =>
  if k = ATTR_CURRENT then some (Val.num 5)
  else if k = ATTR_CYCLE_CHRG then some (Val.num 10) else none

/-- The empty measurement mapping. -/
def dEmpty : Dict := fun _ => none

/-- All four derivable metric names. -/
def allTargets : Finset String :=
  {ATTR_CYCLE_CAP, ATTR_POWER, ATTR_BATTERY_CHARGING, ATTR_RUNTIME}

/-!  ### Basic lemmas about the dictionary operations  -/

lemma update_self (data : Dict) (k : String) (v : Val) :
    update data k v k = some v := by
  simp [update]

lemma update_ne (data : Dict) (k j : String) (v : Val) (h : j ≠ k) :
    update data k v j = data j := by
  simp [update, h]

lemma update_comm (data : Dict) (k1 k2 : String) (v1 v2 : Val) (h : k1 ≠ k2) :
    update (update data k1 v1) k2 v2 = update (update data k2 v2) k1 v1 := by
  funext j
  by_cases h2 : j = k2 <;> by_cases h1 : j = k1 <;>
    simp [update, h1, h2, h, Ne.symm h]

lemma getv_update_ne (data : Dict) (t k : String) (w : Val) (h : k ≠ t) :
    getv (update data t w) k = getv data k := by
  unfold getv
  rw [update_ne data t k w h]

lemma can_calc_iff (data : Dict) (values : Finset String) (value : String)
    (usingv : Finset String) :
    can_calc data values value usingv = true ↔
      value ∈ values ∧ data value = none ∧ ∀ k ∈ usingv, (data k).isSome := by
  simp [can_calc, Option.isNone_iff_eq_none, and_assoc]

lemma can_calc_congr (data d' : Dict) (values : Finset String) (value : String)
    (usingv : Finset String) (h0 : data value = d' value)
    (h : ∀ k ∈ usingv, data k = d' k) :
    can_calc data values value usingv = can_calc d' values value usingv := by
  unfold can_calc
  rw [h0, decide_eq_decide.mpr (show (∀ k ∈ usingv, (data k).isSome)
    ↔ (∀ k ∈ usingv, (d' k).isSome) from forall₂_congr fun k hk => by rw [h k hk])]

lemma can_calc_update_ne (data : Dict) (values : Finset String) (value t : String)
    (usingv : Finset String) (w : Val) (h1 : t ≠ value) (h2 : t ∉ usingv) :
    can_calc (update data t w) values value usingv = can_calc data values value usingv := by
  apply can_calc_congr
  · exact update_ne data t value w (Ne.symm h1)
  · intro k hk
    exact update_ne data t k w fun hkt => h2 (hkt ▸ hk)

lemma calc_cycle_cap_eq (values : Finset String) (data : Dict) :
    calc_cycle_cap values data = ruleApp values ATTR_CYCLE_CAP
      {ATTR_VOLTAGE, ATTR_CYCLE_CHRG} (fun _ => true) cycleCapVal data := by
  simp [calc_cycle_cap, ruleApp, cycleCapVal]

lemma calc_power_eq (values : Finset String) (data : Dict) :
    calc_power values data = ruleApp values ATTR_POWER
      {ATTR_VOLTAGE, ATTR_CURRENT} (fun _ => true) powerVal data := by
  simp [calc_power, ruleApp, powerVal]

lemma calc_charging_eq (values : Finset String) (data : Dict) :
    calc_charging values data = ruleApp values ATTR_BATTERY_CHARGING
      {ATTR_CURRENT} (fun _ => true) chargingVal data := by
  simp [calc_charging, ruleApp, chargingVal]

lemma calc_runtime_eq (values : Finset String) (data : Dict) :
    calc_runtime values data = ruleApp values ATTR_RUNTIME
      {ATTR_CURRENT, ATTR_CYCLE_CHRG} dischargingGuard runtimeVal data := by
  unfold calc_runtime ruleApp dischargingGuard runtimeVal
  by_cases h1 : can_calc data values ATTR_RUNTIME {ATTR_CURRENT, ATTR_CYCLE_CHRG}
    <;> by_cases h2 : toQ (getv data ATTR_CURRENT) < 0
    <;> simp [h1, h2]

/-!  ### Structural lemmas about `ruleApp`  -/

lemma ruleApp_apply_ne (values : Finset String) (tgt : String)
    (usingv : Finset String) (guard : Dict → Bool) (f : Dict → Val) (data : Dict)
    (k : String) (h : k ≠ tgt) :
    ruleApp values tgt usingv guard f data k = data k := by
  unfold ruleApp
  split_ifs with hc
  · exact update_ne data tgt k (f data) h
  · rfl

lemma ruleApp_changed (values : Finset String) (tgt : String)
    (usingv : Finset String) (guard : Dict → Bool) (f : Dict → Val) (data : Dict)
    (k : String) (h : ruleApp values tgt usingv guard f data k ≠ data k) :
    k ∈ values ∧ data k = none := by
  by_cases hk : k = tgt
  · subst hk
    unfold ruleApp at h
    split_ifs at h with hc
    · have hcc := (Bool.and_eq_true _ _).mp hc
      obtain ⟨h1, h2, -⟩ := (can_calc_iff data values k usingv).mp hcc.1
      exact ⟨h1, h2⟩
    · exact absurd rfl h
  · exact absurd (ruleApp_apply_ne values tgt usingv guard f data k hk) h

lemma ruleApp_preserves (values : Finset String) (tgt : String)
    (usingv : Finset String) (guard : Dict → Bool) (f : Dict → Val) (data : Dict)
    (k : String) (v : Val) (h : data k = some v) :
    ruleApp values tgt usingv guard f data k = some v := by
  by_cases hch : ruleApp values tgt usingv guard f data k = data k
  · rw [hch, h]
  · obtain ⟨-, h2⟩ := ruleApp_changed values tgt usingv guard f data k hch
    rw [h2] at h
    exact Option.noConfusion h

lemma ruleApp_fires (values : Finset String) (tgt : String)
    (usingv : Finset String) (guard : Dict → Bool) (f : Dict → Val) (data : Dict)
    (hc : can_calc data values tgt usingv = true) (hg : guard data = true) :
    ruleApp values tgt usingv guard f data = update data tgt (f data) := by
  unfold ruleApp
  rw [hc, hg]
  rfl

lemma ruleApp_skips (values : Finset String) (tgt : String)
    (usingv : Finset String) (guard : Dict → Bool) (f : Dict → Val) (data : Dict)
    (h : can_calc data values tgt usingv = false ∨ guard data = false) :
    ruleApp values tgt usingv guard f data = data := by
  unfold ruleApp
  rcases h with h | h <;> rw [h] <;> simp

lemma can_calc_ruleApp_ne (values values' : Finset String) (tgt : String)
    (usingv : Finset String) (guard : Dict → Bool) (f : Dict → Val) (data : Dict)
    (value : String) (usingv' : Finset String) (h1 : tgt ≠ value) (h2 : tgt ∉ usingv') :
    can_calc (ruleApp values tgt usingv guard f data) values' value usingv'
      = can_calc data values' value usingv' := by
  unfold ruleApp
  split_ifs with hc
  · exact can_calc_update_ne data values' value tgt usingv' (f data) h1 h2
  · rfl

lemma getv_ruleApp_ne (values : Finset String) (tgt : String)
    (usingv : Finset String) (guard : Dict → Bool) (f : Dict → Val) (data : Dict)
    (k : String) (h : k ≠ tgt) :
    getv (ruleApp values tgt usingv guard f data) k = getv data k := by
  unfold getv
  rw [ruleApp_apply_ne values tgt usingv guard f data k h]

lemma ruleApp_comm (values : Finset String) (t1 t2 : String)
    (u1 u2 : Finset String) (g1 g2 : Dict → Bool) (f1 f2 : Dict → Val)
    (ht : t1 ≠ t2) (h12 : t1 ∉ u2) (h21 : t2 ∉ u1)
    (hf1 : ∀ d w, f1 (update d t2 w) = f1 d)
    (hf2 : ∀ d w, f2 (update d t1 w) = f2 d)
    (hg1 : ∀ d w, g1 (update d t2 w) = g1 d)
    (hg2 : ∀ d w, g2 (update d t1 w) = g2 d)
    (data : Dict) :
    ruleApp values t1 u1 g1 f1 (ruleApp values t2 u2 g2 f2 data)
      = ruleApp values t2 u2 g2 f2 (ruleApp values t1 u1 g1 f1 data) := by
  by_cases hc1 : (can_calc data values t1 u1 && g1 data) = true
  · have hcc1 : can_calc data values t1 u1 = true := ((Bool.and_eq_true _ _).mp hc1).1
    have hgg1 : g1 data = true := ((Bool.and_eq_true _ _).mp hc1).2
    have hr1 : ruleApp values t1 u1 g1 f1 data = update data t1 (f1 data) :=
      ruleApp_fires _ _ _ _ _ _ hcc1 hgg1
    by_cases hc2 : (can_calc data values t2 u2 && g2 data) = true
    · have hcc2 : can_calc data values t2 u2 = true := ((Bool.and_eq_true _ _).mp hc2).1
      have hgg2 : g2 data = true := ((Bool.and_eq_true _ _).mp hc2).2
      have hr2 : ruleApp values t2 u2 g2 f2 data = update data t2 (f2 data) :=
        ruleApp_fires _ _ _ _ _ _ hcc2 hgg2
      rw [hr1, hr2]
      have k1c : can_calc (update data t2 (f2 data)) values t1 u1 = true := by
        rw [can_calc_update_ne data values t1 t2 u1 (f2 data) (Ne.symm ht) h21]
        exact hcc1
      have k1g : g1 (update data t2 (f2 data)) = true := by rw [hg1]; exact hgg1
      have k2c : can_calc (update data t1 (f1 data)) values t2 u2 = true := by
        rw [can_calc_update_ne data values t2 t1 u2 (f1 data) ht h12]
        exact hcc2
      have k2g : g2 (update data t1 (f1 data)) = true := by rw [hg2]; exact hgg2
      rw [ruleApp_fires _ _ _ _ _ _ k1c k1g, hf1,
          ruleApp_fires _ _ _ _ _ _ k2c k2g, hf2]
      exact (update_comm data t1 t2 (f1 data) (f2 data) ht).symm
    · have hskip2 : can_calc data values t2 u2 = false ∨ g2 data = false :=
        Bool.and_eq_false_iff.mp (Bool.eq_false_iff.mpr hc2)
      have hr2 : ruleApp values t2 u2 g2 f2 data = data :=
        ruleApp_skips _ _ _ _ _ _ hskip2
      rw [hr2, hr1]
      have hskip2' : can_calc (update data t1 (f1 data)) values t2 u2 = false
          ∨ g2 (update data t1 (f1 data)) = false := by
        rcases hskip2 with h | h
        · exact Or.inl (by
            rw [can_calc_update_ne data values t2 t1 u2 (f1 data) ht h12]; exact h)
        · exact Or.inr (by rw [hg2]; exact h)
      rw [ruleApp_skips _ _ _ _ _ _ hskip2']
  · have hskip1 : can_calc data values t1 u1 = false ∨ g1 data = false :=
      Bool.and_eq_false_iff.mp (Bool.eq_false_iff.mpr hc1)
    have hr1 : ruleApp values t1 u1 g1 f1 data = data :=
      ruleApp_skips _ _ _ _ _ _ hskip1
    rw [hr1]
    by_cases hc2 : (can_calc data values t2 u2 && g2 data) = true
    · have hcc2 : can_calc data values t2 u2 = true := ((Bool.and_eq_true _ _).mp hc2).1
      have hgg2 : g2 data = true := ((Bool.and_eq_true _ _).mp hc2).2
      have hr2 : ruleApp values t2 u2 g2 f2 data = update data t2 (f2 data) :=
        ruleApp_fires _ _ _ _ _ _ hcc2 hgg2
      rw [hr2]
      have hskip1' : can_calc (update data t2 (f2 data)) values t1 u1 = false
          ∨ g1 (update data t2 (f2 data)) = false := by
        rcases hskip1 with h | h
        · exact Or.inl (by
            rw [can_calc_update_ne data values t1 t2 u1 (f2 data) (Ne.symm ht) h21]; exact h)
        · exact Or.inr (by rw [hg1]; exact h)
      rw [ruleApp_skips _ _ _ _ _ _ hskip1']
    · have hskip2 : can_calc data values t2 u2 = false ∨ g2 data = false :=
        Bool.and_eq_false_iff.mp (Bool.eq_false_iff.mpr hc2)
      rw [ruleApp_skips _ _ _ _ _ _ hskip2, ruleApp_skips _ _ _ _ _ _ hskip1]

/-!  ### Stability of rule inputs under writes to other keys  -/

lemma cycleCapVal_update (d : Dict) (t : String) (w : Val)
    (h1 : ATTR_VOLTAGE ≠ t) (h2 : ATTR_CYCLE_CHRG ≠ t) :
    cycleCapVal (update d t w) = cycleCapVal d := by
  unfold cycleCapVal
  rw [getv_update_ne d t ATTR_VOLTAGE w h1, getv_update_ne d t ATTR_CYCLE_CHRG w h2]

lemma powerVal_update (d : Dict) (t : String) (w : Val)
    (h1 : ATTR_VOLTAGE ≠ t) (h2 : ATTR_CURRENT ≠ t) :
    powerVal (update d t w) = powerVal d := by
  unfold powerVal
  rw [getv_update_ne d t ATTR_VOLTAGE w h1, getv_update_ne d t ATTR_CURRENT w h2]

lemma chargingVal_update (d : Dict) (t : String) (w : Val)
    (h : ATTR_CURRENT ≠ t) :
    chargingVal (update d t w) = chargingVal d := by
  unfold chargingVal
  rw [getv_update_ne d t ATTR_CURRENT w h]

lemma dischargingGuard_update (d : Dict) (t : String) (w : Val)
    (h : ATTR_CURRENT ≠ t) :
    dischargingGuard (update d t w) = dischargingGuard d := by
  unfold dischargingGuard
  rw [getv_update_ne d t ATTR_CURRENT w h]

lemma runtimeVal_update (d : Dict) (t : String) (w : Val)
    (h1 : ATTR_CURRENT ≠ t) (h2 : ATTR_CYCLE_CHRG ≠ t) :
    runtimeVal (update d t w) = runtimeVal d := by
  unfold runtimeVal
  rw [getv_update_ne d t ATTR_CURRENT w h1, getv_update_ne d t ATTR_CYCLE_CHRG w h2]

/-!  ### The four rules pairwise commute

No rule reads a key another rule writes: the written keys (cycle capacity,
power, charging flag, runtime) are disjoint from the read keys (voltage,
current, cycle charge) and from each other.  -/

lemma comm_cap_power (values : Finset String) (data : Dict) :
    calc_power values (calc_cycle_cap values data)
      = calc_cycle_cap values (calc_power values data) := by
  simp only [calc_cycle_cap_eq, calc_power_eq]
  exact ruleApp_comm values ATTR_POWER ATTR_CYCLE_CAP
    {ATTR_VOLTAGE, ATTR_CURRENT} {ATTR_VOLTAGE, ATTR_CYCLE_CHRG}
    (fun _ => true) (fun _ => true) powerVal cycleCapVal
    (by decide) (by decide) (by decide)
    (fun d w => powerVal_update d ATTR_CYCLE_CAP w (by decide) (by decide))
    (fun d w => cycleCapVal_update d ATTR_POWER w (by decide) (by decide))
    (fun _ _ => rfl) (fun _ _ => rfl) data

lemma comm_cap_charging (values : Finset String) (data : Dict) :
    calc_charging values (calc_cycle_cap values data)
      = calc_cycle_cap values (calc_charging values data) := by
  simp only [calc_cycle_cap_eq, calc_charging_eq]
  exact ruleApp_comm values ATTR_BATTERY_CHARGING ATTR_CYCLE_CAP
    {ATTR_CURRENT} {ATTR_VOLTAGE, ATTR_CYCLE_CHRG}
    (fun _ => true) (fun _ => true) chargingVal cycleCapVal
    (by decide) (by decide) (by decide)
    (fun d w => chargingVal_update d ATTR_CYCLE_CAP w (by decide))
    (fun d w => cycleCapVal_update d ATTR_BATTERY_CHARGING w (by decide) (by decide))
    (fun _ _ => rfl) (fun _ _ => rfl) data

lemma comm_cap_runtime (values : Finset String) (data : Dict) :
    calc_runtime values (calc_cycle_cap values data)
      = calc_cycle_cap values (calc_runtime values data) := by
  simp only [calc_cycle_cap_eq, calc_runtime_eq]
  exact ruleApp_comm values ATTR_RUNTIME ATTR_CYCLE_CAP
    {ATTR_CURRENT, ATTR_CYCLE_CHRG} {ATTR_VOLTAGE, ATTR_CYCLE_CHRG}
    dischargingGuard (fun _ => true) runtimeVal cycleCapVal
    (by decide) (by decide) (by decide)
    (fun d w => runtimeVal_update d ATTR_CYCLE_CAP w (by decide) (by decide))
    (fun d w => cycleCapVal_update d ATTR_RUNTIME w (by decide) (by decide))
    (fun d w => dischargingGuard_update d ATTR_CYCLE_CAP w (by decide))
    (fun _ _ => rfl) data

lemma comm_power_charging (values : Finset String) (data : Dict) :
    calc_charging values (calc_power values data)
      = calc_power values (calc_charging values data) := by
  simp only [calc_power_eq, calc_charging_eq]
  exact ruleApp_comm values ATTR_BATTERY_CHARGING ATTR_POWER
    {ATTR_CURRENT} {ATTR_VOLTAGE, ATTR_CURRENT}
    (fun _ => true) (fun _ => true) chargingVal powerVal
    (by decide) (by decide) (by decide)
    (fun d w => chargingVal_update d ATTR_POWER w (by decide))
    (fun d w => powerVal_update d ATTR_BATTERY_CHARGING w (by decide) (by decide))
    (fun _ _ => rfl) (fun _ _ => rfl) data

lemma comm_power_runtime (values : Finset String) (data : Dict) :
    calc_runtime values (calc_power values data)
      = calc_power values (calc_runtime values data) := by
  simp only [calc_power_eq, calc_runtime_eq]
  exact ruleApp_comm values ATTR_RUNTIME ATTR_POWER
    {ATTR_CURRENT, ATTR_CYCLE_CHRG} {ATTR_VOLTAGE, ATTR_CURRENT}
    dischargingGuard (fun _ => true) runtimeVal powerVal
    (by decide) (by decide) (by decide)
    (fun d w => runtimeVal_update d ATTR_POWER w (by decide) (by decide))
    (fun d w => powerVal_update d ATTR_RUNTIME w (by decide) (by decide))
    (fun d w => dischargingGuard_update d ATTR_POWER w (by decide))
    (fun _ _ => rfl) data

lemma comm_charging_runtime (values : Finset String) (data : Dict) :
    calc_runtime values (calc_charging values data)
      = calc_charging values (calc_runtime values data) := by
  simp only [calc_charging_eq, calc_runtime_eq]
  exact ruleApp_comm values ATTR_RUNTIME ATTR_BATTERY_CHARGING
    {ATTR_CURRENT, ATTR_CYCLE_CHRG} {ATTR_CURRENT}
    dischargingGuard (fun _ => true) runtimeVal chargingVal
    (by decide) (by decide) (by decide)
    (fun d w => runtimeVal_update d ATTR_BATTERY_CHARGING w (by decide) (by decide))
    (fun d w => chargingVal_update d ATTR_RUNTIME w (by decide))
    (fun d w => dischargingGuard_update d ATTR_BATTERY_CHARGING w (by decide))
    (fun _ _ => rfl) data

lemma powerVal_ruleApp (values : Finset String) (tgt : String) (usingv : Finset String)
    (guard : Dict → Bool) (f : Dict → Val) (data : Dict)
    (h1 : ATTR_VOLTAGE ≠ tgt) (h2 : ATTR_CURRENT ≠ tgt) :
    powerVal (ruleApp values tgt usingv guard f data) = powerVal data := by
  unfold ruleApp
  split_ifs with hc
  · exact powerVal_update data tgt (f data) h1 h2
  · rfl

lemma chargingVal_ruleApp (values : Finset String) (tgt : String) (usingv : Finset String)
    (guard : Dict → Bool) (f : Dict → Val) (data : Dict) (h : ATTR_CURRENT ≠ tgt) :
    chargingVal (ruleApp values tgt usingv guard f data) = chargingVal data := by
  unfold ruleApp
  split_ifs with hc
  · exact chargingVal_update data tgt (f data) h
  · rfl

lemma dischargingGuard_ruleApp (values : Finset String) (tgt : String)
    (usingv : Finset String) (guard : Dict → Bool) (f : Dict → Val) (data : Dict)
    (h : ATTR_CURRENT ≠ tgt) :
    dischargingGuard (ruleApp values tgt usingv guard f data) = dischargingGuard data := by
  unfold ruleApp
  split_ifs with hc
  · exact dischargingGuard_update data tgt (f data) h
  · rfl

lemma runtimeVal_ruleApp (values : Finset String) (tgt : String) (usingv : Finset String)
    (guard : Dict → Bool) (f : Dict → Val) (data : Dict)
    (h1 : ATTR_CURRENT ≠ tgt) (h2 : ATTR_CYCLE_CHRG ≠ tgt) :
    runtimeVal (ruleApp values tgt usingv guard f data) = runtimeVal data := by
  unfold ruleApp
  split_ifs with hc
  · exact runtimeVal_update data tgt (f data) h1 h2
  · rfl

/-!  ### Frame, preservation and change-tracking for the whole pass  -/

lemma calc_values_apply_ne (data : Dict) (values : Finset String) (k : String)
    (h1 : k ≠ ATTR_CYCLE_CAP) (h2 : k ≠ ATTR_POWER)
    (h3 : k ≠ ATTR_BATTERY_CHARGING) (h4 : k ≠ ATTR_RUNTIME) :
    calc_values data values k = data k := by
  unfold calc_values
  rw [calc_runtime_eq, ruleApp_apply_ne _ _ _ _ _ _ _ h4,
      calc_charging_eq, ruleApp_apply_ne _ _ _ _ _ _ _ h3,
      calc_power_eq, ruleApp_apply_ne _ _ _ _ _ _ _ h2,
      calc_cycle_cap_eq, ruleApp_apply_ne _ _ _ _ _ _ _ h1]

lemma calc_values_preserves_aux (data : Dict) (values : Finset String) (k : String)
    (v : Val) (h : data k = some v) : calc_values data values k = some v := by
  unfold calc_values
  rw [calc_runtime_eq]
  apply ruleApp_preserves
  rw [calc_charging_eq]
  apply ruleApp_preserves
  rw [calc_power_eq]
  apply ruleApp_preserves
  rw [calc_cycle_cap_eq]
  exact ruleApp_preserves _ _ _ _ _ _ _ _ h

lemma calc_values_changed_aux (data : Dict) (values : Finset String) (k : String)
    (h : calc_values data values k ≠ data k) : k ∈ values ∧ data k = none := by
  unfold calc_values at h
  by_cases e1 : calc_cycle_cap values data k = data k
  · by_cases e2 : calc_power values (calc_cycle_cap values data) k
        = calc_cycle_cap values data k
    · by_cases e3 : calc_charging values (calc_power values (calc_cycle_cap values data)) k
          = calc_power values (calc_cycle_cap values data) k
      · by_cases e4 : calc_runtime values (calc_charging values (calc_power values
            (calc_cycle_cap values data))) k
            = calc_charging values (calc_power values (calc_cycle_cap values data)) k
        · rw [e4, e3, e2, e1] at h
          exact absurd rfl h
        · rw [calc_runtime_eq] at e4
          obtain ⟨hm, he⟩ := ruleApp_changed _ _ _ _ _ _ _ e4
          rw [e3, e2, e1] at he
          exact ⟨hm, he⟩
      · rw [calc_charging_eq] at e3
        obtain ⟨hm, he⟩ := ruleApp_changed _ _ _ _ _ _ _ e3
        rw [e2, e1] at he
        exact ⟨hm, he⟩
    · rw [calc_power_eq] at e2
      obtain ⟨hm, he⟩ := ruleApp_changed _ _ _ _ _ _ _ e2
      rw [e1] at he
      exact ⟨hm, he⟩
  · rw [calc_cycle_cap_eq] at e1
    exact ruleApp_changed _ _ _ _ _ _ _ e1

/-!  ### Firing analyses: what each rule writes when its gate passes  -/

lemma calc_values_cycle_cap_aux (data : Dict) (values : Finset String)
    (h1 : ATTR_CYCLE_CAP ∈ values) (h2 : data ATTR_CYCLE_CAP = none)
    (h3 : (data ATTR_VOLTAGE).isSome = true) (h4 : (data ATTR_CYCLE_CHRG).isSome = true) :
    calc_values data values ATTR_CYCLE_CAP = some (cycleCapVal data) := by
  have hc : can_calc data values ATTR_CYCLE_CAP {ATTR_VOLTAGE, ATTR_CYCLE_CHRG} = true :=
    (can_calc_iff _ _ _ _).mpr ⟨h1, h2, by
      intro k hk
      rcases Finset.mem_insert.mp hk with rfl | hk
      · exact h3
      · rw [Finset.mem_singleton.mp hk]
        exact h4⟩
  unfold calc_values
  rw [calc_runtime_eq, ruleApp_apply_ne _ _ _ _ _ _ _ (by decide),
      calc_charging_eq, ruleApp_apply_ne _ _ _ _ _ _ _ (by decide),
      calc_power_eq, ruleApp_apply_ne _ _ _ _ _ _ _ (by decide),
      calc_cycle_cap_eq, ruleApp_fires _ _ _ _ _ _ hc rfl, update_self]

lemma calc_values_power_aux (data : Dict) (values : Finset String)
    (h1 : ATTR_POWER ∈ values) (h2 : data ATTR_POWER = none)
    (h3 : (data ATTR_VOLTAGE).isSome = true) (h4 : (data ATTR_CURRENT).isSome = true) :
    calc_values data values ATTR_POWER = some (powerVal data) := by
  have hc0 : can_calc data values ATTR_POWER {ATTR_VOLTAGE, ATTR_CURRENT} = true :=
    (can_calc_iff _ _ _ _).mpr ⟨h1, h2, by
      intro k hk
      rcases Finset.mem_insert.mp hk with rfl | hk
      · exact h3
      · rw [Finset.mem_singleton.mp hk]
        exact h4⟩
  have hc : can_calc (calc_cycle_cap values data) values ATTR_POWER
      {ATTR_VOLTAGE, ATTR_CURRENT} = true := by
    rw [calc_cycle_cap_eq, can_calc_ruleApp_ne _ _ _ _ _ _ _ _ _ (by decide) (by decide)]
    exact hc0
  have hpv : powerVal (calc_cycle_cap values data) = powerVal data := by
    rw [calc_cycle_cap_eq]
    exact powerVal_ruleApp _ _ _ _ _ _ (by decide) (by decide)
  unfold calc_values
  rw [calc_runtime_eq, ruleApp_apply_ne _ _ _ _ _ _ _ (by decide),
      calc_charging_eq, ruleApp_apply_ne _ _ _ _ _ _ _ (by decide),
      calc_power_eq, ruleApp_fires _ _ _ _ _ _ hc rfl, update_self, hpv]

lemma calc_values_charging_aux (data : Dict) (values : Finset String)
    (h1 : ATTR_BATTERY_CHARGING ∈ values) (h2 : data ATTR_BATTERY_CHARGING = none)
    (h3 : (data ATTR_CURRENT).isSome = true) :
    calc_values data values ATTR_BATTERY_CHARGING = some (chargingVal data) := by
  have hc0 : can_calc data values ATTR_BATTERY_CHARGING {ATTR_CURRENT} = true :=
    (can_calc_iff _ _ _ _).mpr ⟨h1, h2, by
      intro k hk
      rw [Finset.mem_singleton.mp hk]
      exact h3⟩
  have hc : can_calc (calc_power values (calc_cycle_cap values data)) values
      ATTR_BATTERY_CHARGING {ATTR_CURRENT} = true := by
    rw [calc_power_eq, can_calc_ruleApp_ne _ _ _ _ _ _ _ _ _ (by decide) (by decide),
        calc_cycle_cap_eq, can_calc_ruleApp_ne _ _ _ _ _ _ _ _ _ (by decide) (by decide)]
    exact hc0
  have hpv : chargingVal (calc_power values (calc_cycle_cap values data))
      = chargingVal data := by
    rw [calc_power_eq, chargingVal_ruleApp _ _ _ _ _ _ (by decide),
        calc_cycle_cap_eq, chargingVal_ruleApp _ _ _ _ _ _ (by decide)]
  unfold calc_values
  rw [calc_runtime_eq, ruleApp_apply_ne _ _ _ _ _ _ _ (by decide),
      calc_charging_eq, ruleApp_fires _ _ _ _ _ _ hc rfl, update_self, hpv]

lemma calc_values_runtime_aux (data : Dict) (values : Finset String)
    (h1 : ATTR_RUNTIME ∈ values) (h2 : data ATTR_RUNTIME = none)
    (h3 : (data ATTR_CURRENT).isSome = true) (h4 : (data ATTR_CYCLE_CHRG).isSome = true) :
    calc_values data values ATTR_RUNTIME =
      if toQ (getv data ATTR_CURRENT) < 0 then some (runtimeVal data) else none := by
  have hc0 : can_calc data values ATTR_RUNTIME {ATTR_CURRENT, ATTR_CYCLE_CHRG} = true :=
    (can_calc_iff _ _ _ _).mpr ⟨h1, h2, by
      intro k hk
      rcases Finset.mem_insert.mp hk with rfl | hk
      · exact h3
      · rw [Finset.mem_singleton.mp hk]
        exact h4⟩
  have hc : can_calc (calc_charging values (calc_power values (calc_cycle_cap values data)))
      values ATTR_RUNTIME {ATTR_CURRENT, ATTR_CYCLE_CHRG} = true := by
    rw [calc_charging_eq, can_calc_ruleApp_ne _ _ _ _ _ _ _ _ _ (by decide) (by decide),
        calc_power_eq, can_calc_ruleApp_ne _ _ _ _ _ _ _ _ _ (by decide) (by decide),
        calc_cycle_cap_eq, can_calc_ruleApp_ne _ _ _ _ _ _ _ _ _ (by decide) (by decide)]
    exact hc0
  have hgv : dischargingGuard (calc_charging values (calc_power values
      (calc_cycle_cap values data))) = dischargingGuard data := by
    rw [calc_charging_eq, dischargingGuard_ruleApp _ _ _ _ _ _ (by decide),
        calc_power_eq, dischargingGuard_ruleApp _ _ _ _ _ _ (by decide),
        calc_cycle_cap_eq, dischargingGuard_ruleApp _ _ _ _ _ _ (by decide)]
  have hrv : runtimeVal (calc_charging values (calc_power values
      (calc_cycle_cap values data))) = runtimeVal data := by
    rw [calc_charging_eq, runtimeVal_ruleApp _ _ _ _ _ _ (by decide) (by decide),
        calc_power_eq, runtimeVal_ruleApp _ _ _ _ _ _ (by decide) (by decide),
        calc_cycle_cap_eq, runtimeVal_ruleApp _ _ _ _ _ _ (by decide) (by decide)]
  have hfr : calc_charging values (calc_power values (calc_cycle_cap values data))
      ATTR_RUNTIME = none := by
    rw [calc_charging_eq, ruleApp_apply_ne _ _ _ _ _ _ _ (by decide),
        calc_power_eq, ruleApp_apply_ne _ _ _ _ _ _ _ (by decide),
        calc_cycle_cap_eq, ruleApp_apply_ne _ _ _ _ _ _ _ (by decide)]
    exact h2
  unfold calc_values
  by_cases hneg : toQ (getv data ATTR_CURRENT) < 0
  · have hg : dischargingGuard (calc_charging values (calc_power values
        (calc_cycle_cap values data))) = true := by
      rw [hgv]
      exact decide_eq_true hneg
    rw [calc_runtime_eq, ruleApp_fires _ _ _ _ _ _ hc hg, update_self, hrv, if_pos hneg]
  · have hg : dischargingGuard (calc_charging values (calc_power values
        (calc_cycle_cap values data))) = false := by
      rw [hgv]
      exact decide_eq_false hneg
    rw [calc_runtime_eq, ruleApp_skips _ _ _ _ _ _ (Or.inr hg), hfr, if_neg hneg]

/-!  ### Skipping analyses: missing prerequisites leave the target alone  -/

lemma calc_values_skip_cap_aux (data : Dict) (values : Finset String)
    (hmiss : ¬ ∀ k ∈ ({ATTR_VOLTAGE, ATTR_CYCLE_CHRG} : Finset String),
      (data k).isSome = true) :
    calc_values data values ATTR_CYCLE_CAP = data ATTR_CYCLE_CAP := by
  have hc : can_calc data values ATTR_CYCLE_CAP {ATTR_VOLTAGE, ATTR_CYCLE_CHRG} = false := by
    rw [Bool.eq_false_iff]
    intro h
    exact hmiss ((can_calc_iff _ _ _ _).mp h).2.2
  unfold calc_values
  rw [calc_runtime_eq, ruleApp_apply_ne _ _ _ _ _ _ _ (by decide),
      calc_charging_eq, ruleApp_apply_ne _ _ _ _ _ _ _ (by decide),
      calc_power_eq, ruleApp_apply_ne _ _ _ _ _ _ _ (by decide),
      calc_cycle_cap_eq, ruleApp_skips _ _ _ _ _ _ (Or.inl hc)]

lemma calc_values_skip_power_aux (data : Dict) (values : Finset String)
    (hmiss : ¬ ∀ k ∈ ({ATTR_VOLTAGE, ATTR_CURRENT} : Finset String),
      (data k).isSome = true) :
    calc_values data values ATTR_POWER = data ATTR_POWER := by
  have hc0 : can_calc data values ATTR_POWER {ATTR_VOLTAGE, ATTR_CURRENT} = false := by
    rw [Bool.eq_false_iff]
    intro h
    exact hmiss ((can_calc_iff _ _ _ _).mp h).2.2
  have hc : can_calc (calc_cycle_cap values data) values ATTR_POWER
      {ATTR_VOLTAGE, ATTR_CURRENT} = false := by
    rw [calc_cycle_cap_eq, can_calc_ruleApp_ne _ _ _ _ _ _ _ _ _ (by decide) (by decide)]
    exact hc0
  unfold calc_values
  rw [calc_runtime_eq, ruleApp_apply_ne _ _ _ _ _ _ _ (by decide),
      calc_charging_eq, ruleApp_apply_ne _ _ _ _ _ _ _ (by decide),
      calc_power_eq, ruleApp_skips _ _ _ _ _ _ (Or.inl hc),
      calc_cycle_cap_eq, ruleApp_apply_ne _ _ _ _ _ _ _ (by decide)]

lemma calc_values_skip_charging_aux (data : Dict) (values : Finset String)
    (hmiss : ¬ ∀ k ∈ ({ATTR_CURRENT} : Finset String), (data k).isSome = true) :
    calc_values data values ATTR_BATTERY_CHARGING = data ATTR_BATTERY_CHARGING := by
  have hc0 : can_calc data values ATTR_BATTERY_CHARGING {ATTR_CURRENT} = false := by
    rw [Bool.eq_false_iff]
    intro h
    exact hmiss ((can_calc_iff _ _ _ _).mp h).2.2
  have hc : can_calc (calc_power values (calc_cycle_cap values data)) values
      ATTR_BATTERY_CHARGING {ATTR_CURRENT} = false := by
    rw [calc_power_eq, can_calc_ruleApp_ne _ _ _ _ _ _ _ _ _ (by decide) (by decide),
        calc_cycle_cap_eq, can_calc_ruleApp_ne _ _ _ _ _ _ _ _ _ (by decide) (by decide)]
    exact hc0
  unfold calc_values
  rw [calc_runtime_eq, ruleApp_apply_ne _ _ _ _ _ _ _ (by decide),
      calc_charging_eq, ruleApp_skips _ _ _ _ _ _ (Or.inl hc),
      calc_power_eq, ruleApp_apply_ne _ _ _ _ _ _ _ (by decide),
      calc_cycle_cap_eq, ruleApp_apply_ne _ _ _ _ _ _ _ (by decide)]

lemma calc_values_skip_runtime_aux (data : Dict) (values : Finset String)
    (hmiss : ¬ ∀ k ∈ ({ATTR_CURRENT, ATTR_CYCLE_CHRG} : Finset String),
      (data k).isSome = true) :
    calc_values data values ATTR_RUNTIME = data ATTR_RUNTIME := by
  have hc0 : can_calc data values ATTR_RUNTIME {ATTR_CURRENT, ATTR_CYCLE_CHRG} = false := by
    rw [Bool.eq_false_iff]
    intro h
    exact hmiss ((can_calc_iff _ _ _ _).mp h).2.2
  have hc : can_calc (calc_charging values (calc_power values (calc_cycle_cap values data)))
      values ATTR_RUNTIME {ATTR_CURRENT, ATTR_CYCLE_CHRG} = false := by
    rw [calc_charging_eq, can_calc_ruleApp_ne _ _ _ _ _ _ _ _ _ (by decide) (by decide),
        calc_power_eq, can_calc_ruleApp_ne _ _ _ _ _ _ _ _ _ (by decide) (by decide),
        calc_cycle_cap_eq, can_calc_ruleApp_ne _ _ _ _ _ _ _ _ _ (by decide) (by decide)]
    exact hc0
  unfold calc_values
  rw [calc_runtime_eq, ruleApp_skips _ _ _ _ _ _ (Or.inl hc),
      calc_charging_eq, ruleApp_apply_ne _ _ _ _ _ _ _ (by decide),
      calc_power_eq, ruleApp_apply_ne _ _ _ _ _ _ _ (by decide),
      calc_cycle_cap_eq, ruleApp_apply_ne _ _ _ _ _ _ _ (by decide)]

/-!  ### Idempotence of the derivation pass  -/

lemma calc_values_idem_aux (data : Dict) (values : Finset String) :
    calc_values (calc_values data values) values = calc_values data values := by
  have hV : calc_values data values ATTR_VOLTAGE = data ATTR_VOLTAGE :=
    calc_values_apply_ne data values ATTR_VOLTAGE
      (by decide) (by decide) (by decide) (by decide)
  have hCU : calc_values data values ATTR_CURRENT = data ATTR_CURRENT :=
    calc_values_apply_ne data values ATTR_CURRENT
      (by decide) (by decide) (by decide) (by decide)
  have hCH : calc_values data values ATTR_CYCLE_CHRG = data ATTR_CYCLE_CHRG :=
    calc_values_apply_ne data values ATTR_CYCLE_CHRG
      (by decide) (by decide) (by decide) (by decide)
  have hback : ∀ k, calc_values data values k = none → data k = none := by
    intro k hk
    cases hdk : data k with
    | none => rfl
    | some v =>
      rw [calc_values_preserves_aux data values k v hdk] at hk
      exact Option.noConfusion hk
  have hs1 : calc_cycle_cap values (calc_values data values) = calc_values data values := by
    by_cases hc : can_calc (calc_values data values) values ATTR_CYCLE_CAP
        {ATTR_VOLTAGE, ATTR_CYCLE_CHRG} = true
    · exfalso
      obtain ⟨hmem, hnone, hins⟩ := (can_calc_iff _ _ _ _).mp hc
      have h3 : (data ATTR_VOLTAGE).isSome = true := by
        have := hins ATTR_VOLTAGE (by decide)
        rwa [hV] at this
      have h4 : (data ATTR_CYCLE_CHRG).isSome = true := by
        have := hins ATTR_CYCLE_CHRG (by decide)
        rwa [hCH] at this
      have h2 : data ATTR_CYCLE_CAP = none := hback _ hnone
      rw [calc_values_cycle_cap_aux data values hmem h2 h3 h4] at hnone
      exact Option.noConfusion hnone
    · rw [calc_cycle_cap_eq]
      exact ruleApp_skips _ _ _ _ _ _ (Or.inl (Bool.eq_false_iff.mpr hc))
  have hs2 : calc_power values (calc_values data values) = calc_values data values := by
    by_cases hc : can_calc (calc_values data values) values ATTR_POWER
        {ATTR_VOLTAGE, ATTR_CURRENT} = true
    · exfalso
      obtain ⟨hmem, hnone, hins⟩ := (can_calc_iff _ _ _ _).mp hc
      have h3 : (data ATTR_VOLTAGE).isSome = true := by
        have := hins ATTR_VOLTAGE (by decide)
        rwa [hV] at this
      have h4 : (data ATTR_CURRENT).isSome = true := by
        have := hins ATTR_CURRENT (by decide)
        rwa [hCU] at this
      have h2 : data ATTR_POWER = none := hback _ hnone
      rw [calc_values_power_aux data values hmem h2 h3 h4] at hnone
      exact Option.noConfusion hnone
    · rw [calc_power_eq]
      exact ruleApp_skips _ _ _ _ _ _ (Or.inl (Bool.eq_false_iff.mpr hc))
  have hs3 : calc_charging values (calc_values data values) = calc_values data values := by
    by_cases hc : can_calc (calc_values data values) values ATTR_BATTERY_CHARGING
        {ATTR_CURRENT} = true
    · exfalso
      obtain ⟨hmem, hnone, hins⟩ := (can_calc_iff _ _ _ _).mp hc
      have h3 : (data ATTR_CURRENT).isSome = true := by
        have := hins ATTR_CURRENT (by decide)
        rwa [hCU] at this
      have h2 : data ATTR_BATTERY_CHARGING = none := hback _ hnone
      rw [calc_values_charging_aux data values hmem h2 h3] at hnone
      exact Option.noConfusion hnone
    · rw [calc_charging_eq]
      exact ruleApp_skips _ _ _ _ _ _ (Or.inl (Bool.eq_false_iff.mpr hc))
  have hs4 : calc_runtime values (calc_values data values) = calc_values data values := by
    by_cases hc : can_calc (calc_values data values) values ATTR_RUNTIME
        {ATTR_CURRENT, ATTR_CYCLE_CHRG} = true
    · obtain ⟨hmem, hnone, hins⟩ := (can_calc_iff _ _ _ _).mp hc
      have h3 : (data ATTR_CURRENT).isSome = true := by
        have := hins ATTR_CURRENT (by decide)
        rwa [hCU] at this
      have h4 : (data ATTR_CYCLE_CHRG).isSome = true := by
        have := hins ATTR_CYCLE_CHRG (by decide)
        rwa [hCH] at this
      have h2 : data ATTR_RUNTIME = none := hback _ hnone
      have hrt := calc_values_runtime_aux data values hmem h2 h3 h4
      by_cases hneg : toQ (getv data ATTR_CURRENT) < 0
      · rw [if_pos hneg] at hrt
        rw [hrt] at hnone
        exact Option.noConfusion hnone
      · have hg : dischargingGuard (calc_values data values) = false := by
          unfold dischargingGuard
          have hg' : getv (calc_values data values) ATTR_CURRENT
              = getv data ATTR_CURRENT := by
            unfold getv
            rw [hCU]
          rw [hg']
          exact decide_eq_false hneg
        rw [calc_runtime_eq]
        exact ruleApp_skips _ _ _ _ _ _ (Or.inr hg)
    · rw [calc_runtime_eq]
      exact ruleApp_skips _ _ _ _ _ _ (Or.inl (Bool.eq_false_iff.mpr hc))
  show calc_runtime values (calc_charging values (calc_power values
    (calc_cycle_cap values (calc_values data values)))) = calc_values data values
  rw [hs1, hs2, hs3, hs4]

/-!  ### Order-insensitivity of the four rules  -/

lemma steps_comm (x y : Finset String → Dict → Dict) (hx : x ∈ ruleList)
    (hy : y ∈ ruleList) (values : Finset String) (d : Dict) :
    y values (x values d) = x values (y values d) := by
  simp only [ruleList, List.mem_cons, List.not_mem_nil, or_false] at hx hy
  rcases hx with rfl | rfl | rfl | rfl
  · rcases hy with rfl | rfl | rfl | rfl
    · rfl
    · exact comm_cap_power values d
    · exact comm_cap_charging values d
    · exact comm_cap_runtime values d
  · rcases hy with rfl | rfl | rfl | rfl
    · exact (comm_cap_power values d).symm
    · rfl
    · exact comm_power_charging values d
    · exact comm_power_runtime values d
  · rcases hy with rfl | rfl | rfl | rfl
    · exact (comm_cap_charging values d).symm
    · exact (comm_power_charging values d).symm
    · rfl
    · exact comm_charging_runtime values d
  · rcases hy with rfl | rfl | rfl | rfl
    · exact (comm_cap_runtime values d).symm
    · exact (comm_power_runtime values d).symm
    · exact (comm_charging_runtime values d).symm
    · rfl

lemma applySteps_perm (steps : List (Finset String → Dict → Dict))
    (hperm : steps.Perm ruleList) (values : Finset String) (data : Dict) :
    applySteps steps values data = calc_values data values := by
  have hcomm : ∀ x ∈ steps, ∀ y ∈ steps, ∀ z : Dict,
      (fun d (s : Finset String → Dict → Dict) => s values d)
          ((fun d (s : Finset String → Dict → Dict) => s values d) z x) y
        = (fun d (s : Finset String → Dict → Dict) => s values d)
          ((fun d (s : Finset String → Dict → Dict) => s values d) z y) x := by
    intro x hx y hy z
    exact steps_comm x y (hperm.mem_iff.mp hx) (hperm.mem_iff.mp hy) values z
  unfold applySteps
  rw [List.Perm.foldl_eq' hperm hcomm data]
  rfl

/-!  ## Claim theorems  -/

/-- C1: for every measurement mapping and every requested set, `calc_values`
never alters the value bound to a key that was already present in the mapping
before the call: every key present before the call maps to the same value
after the call. -/
theorem claim_C1_present_keys_unaltered (data : Dict) (values : Finset String)
    (k : String) (v : Val) (h : data k = some v) :
    calc_values data values k = some v :=
  calc_values_preserves_aux data values k v h

/-- Witness for C1: in the spec's power example the pre-existing voltage entry
survives the derivation pass unchanged. -/
theorem claim_C1_witness :
    dPow ATTR_VOLTAGE = some (Val.num 12)
      ∧ calc_values dPow {ATTR_POWER, ATTR_BATTERY_CHARGING} ATTR_VOLTAGE
          = some (Val.num 12) :=
  ⟨rfl, claim_C1_present_keys_unaltered dPow {ATTR_POWER, ATTR_BATTERY_CHARGING}
    ATTR_VOLTAGE (Val.num 12) rfl⟩

/-- C2: every key whose binding differs after `calc_values` (in particular
every key added by it) is a member of the requested set and was absent from
the mapping before the call; no key outside the requested set is ever
added. -/
theorem claim_C2_adds_only_requested (data : Dict) (values : Finset String)
    (k : String) (h : calc_values data values k ≠ data k) :
    k ∈ values ∧ data k = none :=
  calc_values_changed_aux data values k h

/-- Witness for C2: cycle capacity is added to the spec's cycle-capacity
example, and indeed it was requested and absent. -/
theorem claim_C2_witness :
    ATTR_CYCLE_CAP ∈ ({ATTR_CYCLE_CAP} : Finset String)
      ∧ dCap ATTR_CYCLE_CAP = none := by
  have hch : calc_values dCap {ATTR_CYCLE_CAP} ATTR_CYCLE_CAP ≠ dCap ATTR_CYCLE_CAP := by
    rw [calc_values_cycle_cap_aux dCap {ATTR_CYCLE_CAP} (by decide) rfl rfl rfl]
    intro hx
    exact Option.noConfusion hx
  exact claim_C2_adds_only_requested dCap {ATTR_CYCLE_CAP} ATTR_CYCLE_CAP hch

/-- C3: if cycle capacity is requested, absent, and both voltage and cycle
charge are present, `calc_values` stores voltage × cycle-charge under the
cycle-capacity key. -/
theorem claim_C3_cycle_capacity (data : Dict) (values : Finset String)
    (h1 : ATTR_CYCLE_CAP ∈ values) (h2 : data ATTR_CYCLE_CAP = none)
    (h3 : (data ATTR_VOLTAGE).isSome = true)
    (h4 : (data ATTR_CYCLE_CHRG).isSome = true) :
    calc_values data values ATTR_CYCLE_CAP
      = some (Val.num (toQ (getv data ATTR_VOLTAGE) * toQ (getv data ATTR_CYCLE_CHRG))) :=
  calc_values_cycle_cap_aux data values h1 h2 h3 h4

/-- Witness for C3: from {voltage: 12, cycle-charge: 10} with requested
{cycle-capacity}, the result adds cycle-capacity = 120. -/
theorem claim_C3_witness :
    calc_values dCap {ATTR_CYCLE_CAP} ATTR_CYCLE_CAP = some (Val.num 120) := by
  rw [claim_C3_cycle_capacity dCap {ATTR_CYCLE_CAP} (by decide) rfl rfl rfl,
      show toQ (getv dCap ATTR_VOLTAGE) = 12 from rfl,
      show toQ (getv dCap ATTR_CYCLE_CHRG) = 10 from rfl]
  norm_num

/-- C4: if power (respectively the charging flag) is requested, absent, and
its inputs are present, `calc_values` stores voltage × current under the
power key, and (current > 0) under the charging-flag key. -/
theorem claim_C4_power_and_charging (data : Dict) (values : Finset String) :
    (ATTR_POWER ∈ values → data ATTR_POWER = none →
      (data ATTR_VOLTAGE).isSome = true → (data ATTR_CURRENT).isSome = true →
      calc_values data values ATTR_POWER
        = some (Val.num (toQ (getv data ATTR_VOLTAGE) * toQ (getv data ATTR_CURRENT))))
    ∧ (ATTR_BATTERY_CHARGING ∈ values → data ATTR_BATTERY_CHARGING = none →
      (data ATTR_CURRENT).isSome = true →
      calc_values data values ATTR_BATTERY_CHARGING
        = some (Val.bool (decide (toQ (getv data ATTR_CURRENT) > 0)))) :=
  ⟨calc_values_power_aux data values, calc_values_charging_aux data values⟩

/-- Witness for C4: from {voltage: 12, current: 2} with requested
{power, charging-flag}, the result adds power = 24 and charging-flag = true. -/
theorem claim_C4_witness :
    calc_values dPow {ATTR_POWER, ATTR_BATTERY_CHARGING} ATTR_POWER
        = some (Val.num 24)
      ∧ calc_values dPow {ATTR_POWER, ATTR_BATTERY_CHARGING} ATTR_BATTERY_CHARGING
        = some (Val.bool true) := by
  constructor
  · rw [(claim_C4_power_and_charging dPow {ATTR_POWER, ATTR_BATTERY_CHARGING}).1
        (by decide) rfl rfl rfl,
      show toQ (getv dPow ATTR_VOLTAGE) = 12 from rfl,
      show toQ (getv dPow ATTR_CURRENT) = 2 from rfl]
    norm_num
  · rw [(claim_C4_power_and_charging dPow {ATTR_POWER, ATTR_BATTERY_CHARGING}).2
        (by decide) rfl rfl,
      show toQ (getv dPow ATTR_CURRENT) = 2 from rfl,
      decide_eq_true (show (2:ℚ) > 0 by norm_num)]

/-- C5: if runtime is requested, absent, and both current and cycle charge
are present, `calc_values` stores `int(cycle-charge / |current| × 3600)`
under the runtime key exactly when current is strictly negative, and stores
nothing otherwise (current ≥ 0, including 0). -/
theorem claim_C5_runtime (data : Dict) (values : Finset String)
    (h1 : ATTR_RUNTIME ∈ values) (h2 : data ATTR_RUNTIME = none)
    (h3 : (data ATTR_CURRENT).isSome = true)
    (h4 : (data ATTR_CYCLE_CHRG).isSome = true) :
    calc_values data values ATTR_RUNTIME =
      if toQ (getv data ATTR_CURRENT) < 0 then
        some (Val.num ((int_trunc (toQ (getv data ATTR_CYCLE_CHRG)
          / |toQ (getv data ATTR_CURRENT)| * HRS_TO_SECS) : ℤ)))
      else none :=
  calc_values_runtime_aux data values h1 h2 h3 h4

/-- Witness for C5: from {current: -5, cycle-charge: 10} with requested
{runtime} the result adds runtime = 7200; from {current: 5, cycle-charge: 10}
runtime is not added. -/
theorem claim_C5_witness :
    calc_values dDis {ATTR_RUNTIME} ATTR_RUNTIME = some (Val.num 7200)
      ∧ calc_values dChg {ATTR_RUNTIME} ATTR_RUNTIME = none := by
  constructor
  · rw [claim_C5_runtime dDis {ATTR_RUNTIME} (by decide) rfl rfl rfl,
      if_pos (show toQ (getv dDis ATTR_CURRENT) < 0 from by
        rw [show toQ (getv dDis ATTR_CURRENT) = -5 from rfl]
        norm_num),
      show toQ (getv dDis ATTR_CYCLE_CHRG) = 10 from rfl,
      show toQ (getv dDis ATTR_CURRENT) = -5 from rfl]
    norm_num [int_trunc, HRS_TO_SECS]
  · rw [claim_C5_runtime dChg {ATTR_RUNTIME} (by decide) rfl rfl rfl,
      if_neg (show ¬ toQ (getv dChg ATTR_CURRENT) < 0 from by
        rw [show toQ (getv dChg ATTR_CURRENT) = 5 from rfl]
        norm_num)]

/-- C6: when a rule's prerequisite keys are not all present, the rule is
skipped and its target key is left exactly as it was (in particular absent
stays absent); `calc_values` is a total function, so the call returns
normally. -/
theorem claim_C6_missing_inputs_skip (data : Dict) (values : Finset String) :
    ((¬ ∀ k ∈ ({ATTR_VOLTAGE, ATTR_CYCLE_CHRG} : Finset String),
        (data k).isSome = true) →
      calc_values data values ATTR_CYCLE_CAP = data ATTR_CYCLE_CAP)
    ∧ ((¬ ∀ k ∈ ({ATTR_VOLTAGE, ATTR_CURRENT} : Finset String),
        (data k).isSome = true) →
      calc_values data values ATTR_POWER = data ATTR_POWER)
    ∧ ((¬ ∀ k ∈ ({ATTR_CURRENT} : Finset String), (data k).isSome = true) →
      calc_values data values ATTR_BATTERY_CHARGING = data ATTR_BATTERY_CHARGING)
    ∧ ((¬ ∀ k ∈ ({ATTR_CURRENT, ATTR_CYCLE_CHRG} : Finset String),
        (data k).isSome = true) →
      calc_values data values ATTR_RUNTIME = data ATTR_RUNTIME) :=
  ⟨calc_values_skip_cap_aux data values, calc_values_skip_power_aux data values,
   calc_values_skip_charging_aux data values, calc_values_skip_runtime_aux data values⟩

/-- Witness for C6: on the empty mapping with all four targets requested,
every rule is skipped and every target stays absent. -/
theorem claim_C6_witness :
    calc_values dEmpty allTargets ATTR_CYCLE_CAP = none
      ∧ calc_values dEmpty allTargets ATTR_POWER = none
      ∧ calc_values dEmpty allTargets ATTR_BATTERY_CHARGING = none
      ∧ calc_values dEmpty allTargets ATTR_RUNTIME = none := by
  obtain ⟨w1, w2, w3, w4⟩ := claim_C6_missing_inputs_skip dEmpty allTargets
  exact ⟨w1 (by decide), w2 (by decide), w3 (by decide), w4 (by decide)⟩

/-- C7: `supported` returns true iff at least one matcher descriptor in the
driver's matcher list matches the discovery record (disjunction over the
list, the per-matcher predicate `ble_device_matches` taken as given); a
record matching no matcher yields false. -/
theorem claim_C7_supported_iff {M D : Type} (ble_device_matches : M → D → Bool)
    (matcher_dict_list : List M) (discovery_info : D) :
    supported ble_device_matches matcher_dict_list discovery_info = true
      ↔ ∃ m ∈ matcher_dict_list, ble_device_matches m discovery_info = true := by
  induction matcher_dict_list with
  | nil =>
    simp [supported]
  | cons m rest ih =>
    by_cases h : ble_device_matches m discovery_info = true
    · constructor
      · intro _
        exact ⟨m, List.mem_cons_self m rest, h⟩
      · intro _
        simp [supported, h]
    · rw [show supported ble_device_matches (m :: rest) discovery_info
          = supported ble_device_matches rest discovery_info from by
            simp [supported, h], ih]
      constructor
      · rintro ⟨x, hx, hfx⟩
        exact ⟨x, List.mem_cons_of_mem m hx, hfx⟩
      · rintro ⟨x, hx, hfx⟩
        rcases List.mem_cons.mp hx with rfl | hx
        · exact absurd hfx h
        · exact ⟨x, hx, hfx⟩

/-- C8: the four derivation rules are mutually independent (no rule reads a
key another rule writes), so applying them in any order — any permutation of
the source-order rule list — produces the same final mapping as
`calc_values`. -/
theorem claim_C8_order_insensitive (steps : List (Finset String → Dict → Dict))
    (hperm : steps.Perm ruleList) (values : Finset String) (data : Dict) :
    applySteps steps values data = calc_values data values :=
  applySteps_perm steps hperm values data

/-- Witness for C8: running the four rules in reverse order on the spec's
power example gives the same result as `calc_values`. -/
theorem claim_C8_witness :
    applySteps [calc_runtime, calc_charging, calc_power, calc_cycle_cap]
      {ATTR_POWER, ATTR_BATTERY_CHARGING} dPow
      = calc_values dPow {ATTR_POWER, ATTR_BATTERY_CHARGING} :=
  claim_C8_order_insensitive
    [calc_runtime, calc_charging, calc_power, calc_cycle_cap]
    (List.reverse_perm ruleList) {ATTR_POWER, ATTR_BATTERY_CHARGING} dPow

/-- C9: `calc_values` is idempotent — a second pass with the same requested
set leaves the mapping unchanged, because every key a first pass could add
is then present and the gating check rejects present keys. -/
theorem claim_C9_idempotent (data : Dict) (values : Finset String) :
    calc_values (calc_values data values) values = calc_values data values :=
  calc_values_idem_aux data values

/-- C10: the division in the runtime rule is always safe — whenever the
runtime rule actually writes (i.e. the division is evaluated), the guard
current < 0 held, so the divisor |current| is strictly positive; in
particular no division by zero can occur, including for current = 0. -/
theorem claim_C10_division_safe (data : Dict) (values : Finset String)
    (h : calc_values data values ATTR_RUNTIME ≠ data ATTR_RUNTIME) :
    toQ (getv data ATTR_CURRENT) < 0 ∧ 0 < |toQ (getv data ATTR_CURRENT)| := by
  by_cases hins : ∀ k ∈ ({ATTR_CURRENT, ATTR_CYCLE_CHRG} : Finset String),
      (data k).isSome = true
  · obtain ⟨hmem, hnone⟩ := calc_values_changed_aux data values ATTR_RUNTIME h
    have h3 : (data ATTR_CURRENT).isSome = true := hins ATTR_CURRENT (by decide)
    have h4 : (data ATTR_CYCLE_CHRG).isSome = true := hins ATTR_CYCLE_CHRG (by decide)
    have hrt := calc_values_runtime_aux data values hmem hnone h3 h4
    by_cases hneg : toQ (getv data ATTR_CURRENT) < 0
    · exact ⟨hneg, abs_pos.mpr (ne_of_lt hneg)⟩
    · rw [if_neg hneg] at hrt
      rw [hrt, hnone] at h
      exact absurd rfl h
  · exact absurd (calc_values_skip_runtime_aux data values hins) h

/-- Witness for C10: in the discharging example the runtime rule fires, and
indeed the current is negative and the divisor |current| is positive. -/
theorem claim_C10_witness :
    toQ (getv dDis ATTR_CURRENT) < 0 ∧ 0 < |toQ (getv dDis ATTR_CURRENT)| := by
  apply claim_C10_division_safe dDis {ATTR_RUNTIME}
  rw [calc_values_runtime_aux dDis {ATTR_RUNTIME} (by decide) rfl rfl rfl,
    if_pos (show toQ (getv dDis ATTR_CURRENT) < 0 from by
      rw [show toQ (getv dDis ATTR_CURRENT) = -5 from rfl]
      norm_num)]
  intro hx
  exact Option.noConfusion hx

end BmsBle
